import Mathlib

/-!
Verification development for the chat backend (auth + chat orchestration).

The Python sources are embedded shallowly:
  * MongoDB collections become lists of document structures inside a `DB`
    record; `insert_one` appends, `find_one` is `List.find?`, `find(...)`
    with `.sort("timestamp", 1)` is a stable insertion sort on the
    optional `timestamp` field (absent keys sort equal, preserving
    insertion order).
  * Python dict keys that a document may or may not carry are modelled as
    `Option` fields; `save_message` stores exactly
    `{"session_id": sid, "message": {role, content}}`, so the top-level
    `role`, `content` and `timestamp` keys are absent (`none`).
  * `async` functions become pure functions with the database threaded
    explicitly; the external moderation and generation capabilities are
    inputs (`SafetyResult`, `GenResult`).
  * Exceptions become `Except`; an SSE frame becomes an `Event`.
-/

namespace Backend

/-- The nested `{"role": ..., "content": ...}` value stored under the
`message` key by `database.save_message` (chat.py builds it literally). -/
structure ChatMessage where
  role : String
  content : String
deriving DecidableEq, Repr

/-- A document of the `messages` collection. `save_message` inserts
`{"session_id": session_id, "message": message}`; the optional top-level
`role`, `content` and `timestamp` keys model dict keys that may be absent
(they are never written by any code path in the repository). -/
structure MessageDoc where
  session_id : String
  message : ChatMessage
  role? : Option String
  content? : Option String
  timestamp : Option Nat
deriving DecidableEq, Repr

/-- A MongoDB `_id` value: either an auto-generated ObjectId (insert_one
without an explicit `_id`) or a string supplied by a query. -/
inductive BsonId where
  | objectId (n : Nat)
  | str (s : String)
deriving DecidableEq, Repr

/-- A document of the `sessions` collection. `create_session` inserts
`{"session_id": ..., "user_id": ...}` and MongoDB auto-generates `_id`. -/
structure SessionDoc where
  _id : BsonId
  session_id : String
  user_id : String
deriving DecidableEq, Repr

/-- A document of the `users` collection (`{"email", "password_hash"}`). -/
structure UserDoc where
  email : String
  password_hash : String
deriving DecidableEq, Repr

/-- The state of the MongoDB database `ai_chat` (database.py).
`nextOid` feeds fresh auto-generated ObjectIds. -/
structure DB where
  users : List UserDoc
  sessions : List SessionDoc
  messages : List MessageDoc
  nextOid : Nat
deriving DecidableEq, Repr

/-- An empty database. -/
def emptyDB : DB := { users := [], sessions := [], messages := [], nextOid := 0 }

/-- database.py `create_user`: `users.insert_one(user_data)`. -/
def create_user (db : DB) (user_data : UserDoc) : DB :=
  { db with users := db.users ++ [user_data] }

/-- database.py `get_user`: `users.find_one({"email": email})`. -/
def get_user (db : DB) (email : String) : Option UserDoc :=
  db.users.find? (fun u => u.email == email)

/-- database.py `create_session`: `sessions.insert_one(session_data)` with
`session_data = {"session_id": ..., "user_id": ...}`; MongoDB assigns a
fresh ObjectId as `_id`. -/
def create_session (db : DB) (session_id user_id : String) : DB :=
  { db with
    sessions := db.sessions ++ [⟨BsonId.objectId db.nextOid, session_id, user_id⟩],
    nextOid := db.nextOid + 1 }

/-- database.py `get_session`: `sessions.find_one({"_id": session_id})` —
note the query key is `_id`, compared against the string `session_id`. -/
def get_session (db : DB) (session_id : String) : Option SessionDoc :=
  db.sessions.find? (fun s => s._id == BsonId.str session_id)

/-- The document `save_message` inserts: exactly
`{"session_id": session_id, "message": message}` — no top-level `role`,
`content` or `timestamp` key. -/
def mkMessageDoc (session_id : String) (message : ChatMessage) : MessageDoc :=
  { session_id := session_id, message := message,
    role? := none, content? := none, timestamp := none }

/-- database.py `save_message`:
`messages.insert_one({"session_id": session_id, "message": message})`. -/
def save_message (db : DB) (session_id : String) (message : ChatMessage) : DB :=
  { db with messages := db.messages ++ [mkMessageDoc session_id message] }

/-- Ascending comparison of optional `timestamp` values; a document
without the key sorts before (ties with) any other, as MongoDB treats a
missing sort key as null. -/
def tsLe (a b : MessageDoc) : Bool :=
  match a.timestamp, b.timestamp with
  | none, _ => true
  | some _, none => false
  | some x, some y => x ≤ y

/-- Stable insertion step for the `timestamp` sort. -/
def insertByTs (m : MessageDoc) : List MessageDoc → List MessageDoc
  | [] => [m]
  | x :: xs => if tsLe m x then m :: x :: xs else x :: insertByTs m xs

/-- One admissible result order of MongoDB's ascending `timestamp` sort:
MongoDB guarantees only a permutation of the matches ordered by the key,
and leaves the relative order of tied (here: absent) keys unspecified;
this function fixes the insertion-order tiebreak to keep the pipeline
executable. No theorem below depends on the tiebreak: every document
`save_message` writes lacks the key entirely (see
`stored_messages_lack_timestamp`), so the true result order among them is
not determined by the code. -/
def sortByTs : List MessageDoc → List MessageDoc
  | [] => []
  | x :: xs => insertByTs x (sortByTs xs)

/-- database.py `get_messages`:
`messages.find({"session_id": session_id}).sort("timestamp", 1).to_list(None)`. -/
def get_messages (db : DB) (session_id : String) : List MessageDoc :=
  sortByTs (db.messages.filter (fun m => m.session_id == session_id))

/-- moderation.py `check_content_safety` result:
`{"flagged": bool, "categories": [...]}`. The external classifier's verdict
is an input to the pipeline. -/
structure SafetyResult where
  flagged : Bool
  categories : List String
deriving DecidableEq, Repr

/-- models.py `ChatRequest` (message, max_length 2000 enforced at the
HTTP boundary). -/
structure ChatRequest where
  message : String
deriving DecidableEq, Repr

/-- One element of the `content_parts` list handed to
`model.generate_content`: `{"role": r, "parts": [{"text": t}, ...]}`,
with `parts` modelled by its list of text fields. -/
structure ContentPart where
  role : String
  parts : List String
deriving DecidableEq, Repr

/-- chat.py lines 41–47: build `content_parts` from the history documents.
For each `msg` in the history the code checks `"role" in msg and
"content" in msg` on the TOP-LEVEL dict and appends
`{"role": msg["role"], "parts": [{"text": msg["content"]}]}`; finally the
new user message is appended. -/
def build_content_parts (history : List MessageDoc) (new_message : String) :
    List ContentPart :=
  (history.filterMap (fun m =>
    match m.role?, m.content? with
    | some r, some c => some ⟨r, [c]⟩
    | _, _ => none)) ++ [⟨"user", [new_message]⟩]

/-- One SSE frame yielded by `chat_stream`: `{"delta": s}`, `{"error": s}`
or `{"done": true}`. -/
inductive Event where
  | delta (s : String)
  | error (s : String)
  | done
deriving DecidableEq, Repr

/-- Outcome of the external streamed generation call: the `chunk.text`
values successfully iterated, and `some e` if the iteration then raised
an exception (caught by the `except` in chat.py), `none` if it completed. -/
structure GenResult where
  chunks : List String
  error : Option String
deriving DecidableEq, Repr

/-- The error text of chat.py line 30 (moderation block). -/
def blocked_message : String := "内容因安全原因被阻止"

/-- The error text of chat.py line 69 (generation exception). -/
def gen_error_message (e : String) : String := "生成内容时出错: " ++ e

/-- chat.py lines 34–37: fixed session id `"default_session"`; look the
session up and create it when the lookup returns nothing. -/
def resolve_session (db : DB) (user_id : String) : DB :=
  match get_session db "default_session" with
  | some _ => db
  | none => create_session db "default_session" user_id

/-- Result of one `chat_stream` invocation: the yielded frames, the
database afterwards, and the `content_parts` handed to
`model.generate_content` (`none` when the moderation gate blocked before
the call). -/
structure ChatOutcome where
  events : List Event
  db : DB
  sent_context : Option (List ContentPart)
deriving DecidableEq, Repr

/-- chat.py `chat_stream`: moderation gate, session resolve, history
assembly, persist user turn, stream generation (chunks with empty
`chunk.text` are neither yielded nor accumulated), persist assistant turn
when at least one fragment accumulated, final done frame. The moderation
verdict and the provider's streaming outcome are inputs. -/
def chat_stream (db : DB) (user_id : String) (chat_req : ChatRequest)
    (safety : SafetyResult) (gen : GenResult) : ChatOutcome :=
  if safety.flagged then
    { events := [Event.error blocked_message], db := db, sent_context := none }
  else
    let db1 := resolve_session db user_id
    let history := get_messages db1 "default_session"
    let content_parts := build_content_parts history chat_req.message
    let db2 := save_message db1 "default_session" ⟨"user", chat_req.message⟩
    let processed := gen.chunks.filter (fun c => c != "")
    match gen.error with
    | some e =>
      { events := processed.map Event.delta ++ [Event.error (gen_error_message e)],
        db := db2, sent_context := some content_parts }
    | none =>
      let db3 := if processed.isEmpty then db2
        else save_message db2 "default_session" ⟨"assistant", String.join processed⟩
      { events := processed.map Event.delta ++ [Event.done],
        db := db3, sent_context := some content_parts }

/-- Split a character list into the groups separated by the character
`'$'` (the behavior of Python `s.split("$")` for this one-character
separator, used to parse the modular-crypt format of bcrypt hashes). -/
def splitDollar : List Char → List (List Char)
  | [] => [[]]
  | c :: cs =>
    if c = '$' then [] :: splitDollar cs
    else
      match splitDollar cs with
      | [] => [[c]]
      | g :: gs => (c :: g) :: gs

/-- Parse a bcrypt modular-crypt hash string `$2b$<salt>$<digest>` into
its salt and digest; `none` when the string is malformed. -/
def parseBcrypt (s : String) : Option (String × String) :=
  match splitDollar s.data with
  | [[], ['2', 'b'], salt, digest] => some (⟨salt⟩, ⟨digest⟩)
  | _ => none

/-- Modelled external capability: the bcrypt digest of a password under a
salt, an abstract concrete stand-in for the actual key-derivation
function (only determinism and executability matter to the claims). -/
def bdigest (salt password : String) : String :=
  toString ((salt.data.foldl (fun a c => a * 131 + c.toNat) 5) * 1000003
    + password.data.foldl (fun a c => a * 131 + c.toNat) 7)

/-- Modelled external capability: `bcrypt.hashpw(password, salt)` encodes
salt and digest in modular-crypt format. -/
def hashpw (password salt : String) : String :=
  "$2b$" ++ salt ++ "$" ++ bdigest salt password

/-- Modelled external capability: `bcrypt.checkpw(password, hashed)`
raises `ValueError("Invalid salt")` when `hashed` is not a well-formed
bcrypt hash, else recomputes the digest under the stored salt and
compares (constant-time in the real library). -/
def checkpw (password hashed : String) : Except String Bool :=
  match parseBcrypt hashed with
  | none => Except.error "Invalid salt"
  | some (salt, digest) => Except.ok (bdigest salt password == digest)

/-- auth.py `hash_password`: `bcrypt.hashpw(password, bcrypt.gensalt())`;
the fresh salt drawn by `gensalt` is passed explicitly. -/
def hash_password (password salt : String) : String :=
  hashpw password salt

/-- auth.py `verify_password`:
`bcrypt.checkpw(plain_password, hashed_password)` — any `ValueError`
from `checkpw` propagates to the caller. -/
def verify_password (plain_password hashed_password : String) : Except String Bool :=
  checkpw plain_password hashed_password

/-- The claims a JWT carries here: the optional `sub` claim and the `exp`
claim (seconds since epoch). -/
structure TokenPayload where
  sub : Option String
  exp : Nat
deriving DecidableEq, Repr

/-- A signed JWT: payload plus HS256 signature over the payload. -/
structure Token where
  payload : TokenPayload
  signature : Nat
deriving DecidableEq, Repr

/-- Modelled external capability: the HS256 MAC of a payload under the
server secret (an abstract deterministic function of both). -/
def hs256 (secret : String) (p : TokenPayload) : Nat :=
  (secret.data.foldl (fun a c => a * 131 + c.toNat) 11) * 1000003
    + (match p.sub with
       | none => 0
       | some s => s.data.foldl (fun a c => a * 131 + c.toNat) 13 + 1) * 1009
    + p.exp

/-- Modelled external capability: `jwt.encode(payload, secret, HS256)`. -/
def jwt_encode (secret : String) (p : TokenPayload) : Token :=
  ⟨p, hs256 secret p⟩

/-- Modelled external capability: `jwt.decode(token, secret, [HS256])` at
wall-clock time `now` — verifies the signature and rejects an expired
token (`exp < now`, i.e. the token is past its expiry instant), raising
`JWTError` in either case. -/
def jwt_decode (secret : String) (t : Token) (now : Nat) : Except String TokenPayload :=
  if t.signature ≠ hs256 secret t.payload then Except.error "Signature verification failed"
  else if t.payload.exp < now then Except.error "Signature has expired"
  else Except.ok t.payload

/-- auth.py `create_access_token`: copy the claims, set
`exp = now + expires_delta` (default 30 minutes = 1800 s), sign with the
secret. The claims dict always carries `{"sub": ...}` at the call sites. -/
def create_access_token (secret : String) (sub : Option String) (now : Nat)
    (expires_delta : Option Nat) : Token :=
  jwt_encode secret ⟨sub, now + expires_delta.getD 1800⟩

/-- Result of auth.py `authenticate_user`: the token response, an
`HTTPException(status, detail)`, or an uncaught Python exception. -/
inductive AuthOutcome where
  | token (t : Token)
  | httpException (status : Nat) (detail : String)
  | exn (msg : String)
deriving DecidableEq, Repr

/-- models.py `LoginRequest` after validation. -/
structure LoginRequest where
  email : String
  password : String
deriving DecidableEq, Repr

/-- auth.py `authenticate_user`: look the user up by email; when the user
is absent, or `verify_password` returns false, raise the same
`HTTPException(401, "邮箱或密码错误")` (short-circuit: `verify_password`
does not run when the user is absent); on success issue a token with
`sub = user["email"]` and a 30-minute expiry. A `ValueError` escaping
`verify_password` propagates uncaught. -/
def authenticate_user (db : DB) (secret : String) (now : Nat)
    (login_req : LoginRequest) : AuthOutcome :=
  match get_user db login_req.email with
  | none => AuthOutcome.httpException 401 "邮箱或密码错误"
  | some u =>
    match verify_password login_req.password u.password_hash with
    | Except.error e => AuthOutcome.exn e
    | Except.ok false => AuthOutcome.httpException 401 "邮箱或密码错误"
    | Except.ok true =>
      AuthOutcome.token (create_access_token secret (some u.email) now (some 1800))

/-- auth.py `get_current_user`: decode the bearer token; a `JWTError`, a
missing `sub` claim, or an unknown user all collapse to the same
`HTTPException(401, "凭证验证失败")`. -/
def get_current_user (db : DB) (secret : String) (credentials : Token)
    (now : Nat) : Except String UserDoc :=
  match jwt_decode secret credentials now with
  | Except.error _ => Except.error "凭证验证失败"
  | Except.ok payload =>
    match payload.sub with
    | none => Except.error "凭证验证失败"
    | some email =>
      match get_user db email with
      | none => Except.error "凭证验证失败"
      | some u => Except.ok u

/-- Modelled from pydantic `EmailStr` (external library), simplified to a
non-trivial executable check; the claims never depend on which strings
pass it. -/
def isEmailStr (s : String) : Bool :=
  s.data.contains '@' && s.length ≥ 3

/-- models.py `LoginRequest` validation as pydantic performs it before
the route handler runs: `EmailStr` on `email`, `min_length=8` on
`password`; `none` means a 422 validation error. -/
def parseLoginRequest (email password : String) : Option LoginRequest :=
  if isEmailStr email && password.length ≥ 8 then some ⟨email, password⟩
  else none

/-- The HTTP-level result of `POST /auth/login`. -/
inductive HTTPResponse where
  | validation_error
  | http (status : Nat) (detail : String)
  | token_ok (t : Token)
  | server_error (msg : String)
deriving DecidableEq, Repr

/-- main.py `login` route: FastAPI/pydantic validates the body into a
`LoginRequest` (responding 422 before any handler code runs) and then
calls `authenticate_user`. -/
def login_endpoint (db : DB) (secret : String) (now : Nat)
    (email password : String) : HTTPResponse :=
  match parseLoginRequest email password with
  | none => HTTPResponse.validation_error
  | some req =>
    match authenticate_user db secret now req with
    | AuthOutcome.token t => HTTPResponse.token_ok t
    | AuthOutcome.httpException s d => HTTPResponse.http s d
    | AuthOutcome.exn e => HTTPResponse.server_error e

/-! ## Helper lemmas -/

/-- `resolve_session` only touches the `sessions` collection. -/
lemma resolve_session_messages (db : DB) (uid : String) :
    (resolve_session db uid).messages = db.messages := by
  rw [resolve_session]
  rcases get_session db "default_session" with _ | s <;> simp [create_session]

/-! ## Claim theorems -/

/-- C1 (code bug): after two sequential successful chat turns, the four
persisted message documents all lack the `timestamp` key that
`get_messages` sorts on (and that the spec's persisted record shape and
`models.Message` require) — `save_message` never writes it. The
ascending-timestamp sort therefore compares only absent keys, whose
relative order MongoDB leaves unspecified, so retrieval is not
guaranteed to return the turns in order and ascending timestamps cannot
reconstruct turn order. -/
theorem stored_messages_lack_timestamp :
    ((chat_stream (chat_stream emptyDB "u" ⟨"hi"⟩ ⟨false, []⟩
          ⟨["Hel", "lo"], none⟩).db
        "u" ⟨"again"⟩ ⟨false, []⟩ ⟨["ok"], none⟩).db).messages
      = [mkMessageDoc "default_session" ⟨"user", "hi"⟩,
         mkMessageDoc "default_session" ⟨"assistant", "Hello"⟩,
         mkMessageDoc "default_session" ⟨"user", "again"⟩,
         mkMessageDoc "default_session" ⟨"assistant", "ok"⟩]
    ∧ ((chat_stream (chat_stream emptyDB "u" ⟨"hi"⟩ ⟨false, []⟩
          ⟨["Hel", "lo"], none⟩).db
        "u" ⟨"again"⟩ ⟨false, []⟩ ⟨["ok"], none⟩).db).messages.map
        MessageDoc.timestamp
      = [none, none, none, none] :=
  ⟨rfl, rfl⟩

/-- C2: every invocation of the chat stream emits either some deltas
followed by a single terminal error frame, or some deltas followed by a
single done frame, and nothing after the terminal frame. -/
theorem chat_stream_event_shape (db : DB) (uid : String) (req : ChatRequest)
    (safety : SafetyResult) (gen : GenResult) :
    (∃ (ds : List String) (e : String),
      (chat_stream db uid req safety gen).events
        = ds.map Event.delta ++ [Event.error e])
    ∨ (∃ ds : List String, (chat_stream db uid req safety gen).events
        = ds.map Event.delta ++ [Event.done]) := by
  cases hf : safety.flagged with
  | true => exact Or.inl ⟨[], blocked_message, by simp [chat_stream, hf]⟩
  | false =>
    cases hg : gen.error with
    | some e =>
      exact Or.inl ⟨gen.chunks.filter (fun c => c != ""), gen_error_message e,
        by simp [chat_stream, hf, hg]⟩
    | none =>
      exact Or.inr ⟨gen.chunks.filter (fun c => c != ""),
        by simp [chat_stream, hf, hg]⟩

/-- C3: when the moderation gate flags the message, the stream is exactly
one error frame, the database is untouched (no message persisted), and
nothing is handed to generation. -/
theorem chat_stream_flagged_blocks (db : DB) (uid : String) (req : ChatRequest)
    (safety : SafetyResult) (gen : GenResult) (h : safety.flagged = true) :
    chat_stream db uid req safety gen
      = { events := [Event.error blocked_message], db := db,
          sent_context := none } := by
  simp [chat_stream, h]

/-- C3 witness: a concrete flagged request. -/
theorem chat_stream_flagged_blocks_witness :
    chat_stream emptyDB "u" ⟨"bad"⟩ ⟨true, ["HARM_CATEGORY_HARASSMENT"]⟩ ⟨[], none⟩
      = { events := [Event.error blocked_message], db := emptyDB,
          sent_context := none } :=
  chat_stream_flagged_blocks emptyDB "u" ⟨"bad"⟩
    ⟨true, ["HARM_CATEGORY_HARASSMENT"]⟩ ⟨[], none⟩ rfl

/-- C4: when the gate passes and generation raises after some fragments,
the stream is the deltas already produced followed by a single terminal
error frame, and the store gains exactly the user message — no assistant
message, not even a partial one. -/
theorem chat_stream_generation_error (db : DB) (uid : String)
    (req : ChatRequest) (safety : SafetyResult) (cs : List String) (e : String)
    (h : safety.flagged = false) :
    (chat_stream db uid req safety ⟨cs, some e⟩).events
      = (cs.filter (fun c => c != "")).map Event.delta
        ++ [Event.error (gen_error_message e)]
    ∧ (chat_stream db uid req safety ⟨cs, some e⟩).db.messages
      = db.messages ++ [mkMessageDoc "default_session" ⟨"user", req.message⟩] := by
  constructor <;> simp [chat_stream, h, save_message, resolve_session_messages]

/-- C4 witness: one fragment, then the provider raises. -/
theorem chat_stream_generation_error_witness :
    (chat_stream emptyDB "u" ⟨"hi"⟩ ⟨false, []⟩ ⟨["He"], some "boom"⟩).events
      = [Event.delta "He", Event.error (gen_error_message "boom")]
    ∧ (chat_stream emptyDB "u" ⟨"hi"⟩ ⟨false, []⟩ ⟨["He"], some "boom"⟩).db.messages
      = [mkMessageDoc "default_session" ⟨"user", "hi"⟩] := by
  have h := chat_stream_generation_error emptyDB "u" ⟨"hi"⟩ ⟨false, []⟩
    ["He"] "boom" rfl
  exact ⟨by rw [h.1]; decide, by rw [h.2]; rfl⟩

/-- C5: `authenticate_user` produces the identical `HTTPException 401`
value whether the account is missing or the password verification
returns false — the two cases are indistinguishable to the caller. -/
theorem authenticate_user_uniform_error (db1 db2 : DB)
    (secret1 secret2 : String) (now1 now2 : Nat)
    (req1 req2 : LoginRequest) (u : UserDoc)
    (habsent : get_user db1 req1.email = none)
    (hfound : get_user db2 req2.email = some u)
    (hwrong : verify_password req2.password u.password_hash = Except.ok false) :
    authenticate_user db1 secret1 now1 req1
      = AuthOutcome.httpException 401 "邮箱或密码错误"
    ∧ authenticate_user db2 secret2 now2 req2
      = authenticate_user db1 secret1 now1 req1 := by
  constructor <;> simp [authenticate_user, habsent, hfound, hwrong]

/-- C5 witness: unknown account versus known account with wrong
password. -/
theorem authenticate_user_uniform_error_witness :
    authenticate_user emptyDB "sec" 0 ⟨"a@x.com", "anything1"⟩
      = AuthOutcome.httpException 401 "邮箱或密码错误"
    ∧ authenticate_user
        (create_user emptyDB ⟨"a@x.com", hash_password "correcthorse" "ab"⟩)
        "sec" 0 ⟨"a@x.com", "wrongpw1"⟩
      = authenticate_user emptyDB "sec" 0 ⟨"a@x.com", "anything1"⟩ :=
  authenticate_user_uniform_error emptyDB
    (create_user emptyDB ⟨"a@x.com", hash_password "correcthorse" "ab"⟩)
    "sec" "sec" 0 0 ⟨"a@x.com", "anything1"⟩ ⟨"a@x.com", "wrongpw1"⟩
    ⟨"a@x.com", hash_password "correcthorse" "ab"⟩ rfl rfl rfl

/-- C6 (code bug): with one message already stored for the session, the
context handed to the generation call contains only the new user turn —
the stored history is dropped because the top-level `role`/`content`
keys the assembly loop tests are never present on stored documents. -/
theorem context_drops_stored_history :
    get_messages (save_message emptyDB "default_session" ⟨"user", "hi"⟩)
        "default_session"
      = [mkMessageDoc "default_session" ⟨"user", "hi"⟩]
    ∧ (chat_stream (save_message emptyDB "default_session" ⟨"user", "hi"⟩)
        "u" ⟨"there"⟩ ⟨false, []⟩ ⟨["ok"], none⟩).sent_context
      = some [⟨"user", ["there"]⟩] :=
  ⟨rfl, rfl⟩

/-- C7 (code bug): after a successful chat turn has created the session
record, `get_session` still returns nothing (the lookup queries `_id`
while the identifier is stored under `session_id`), so a second
invocation inserts a second session record. -/
theorem session_lookup_never_finds :
    get_session (chat_stream emptyDB "u" ⟨"hi"⟩ ⟨false, []⟩ ⟨["a"], none⟩).db
        "default_session" = none
    ∧ ((chat_stream (chat_stream emptyDB "u" ⟨"hi"⟩ ⟨false, []⟩ ⟨["a"], none⟩).db
        "u" ⟨"again"⟩ ⟨false, []⟩ ⟨["b"], none⟩).db).sessions.length = 2 :=
  ⟨rfl, rfl⟩

/-- C8: a token issued for a subject and decoded before its expiry yields
that subject; any token whose expiry has passed fails verification in
`get_current_user`, whatever its signature. -/
theorem token_roundtrip_and_expiry :
    (∀ (secret s : String) (now tnow : Nat) (delta : Option Nat),
      tnow < now + delta.getD 1800 →
      (jwt_decode secret (create_access_token secret (some s) now delta)
          tnow).map TokenPayload.sub
        = Except.ok (some s))
    ∧ (∀ (db : DB) (secret : String) (tok : Token) (tnow : Nat),
      tok.payload.exp < tnow →
      get_current_user db secret tok tnow = Except.error "凭证验证失败") := by
  constructor
  · intro secret s now tnow delta h
    have hne : ¬ (now + delta.getD 1800 < tnow) := by omega
    simp [jwt_decode, create_access_token, jwt_encode, hne, Except.map]
  · intro db secret tok tnow h
    rcases Decidable.em (tok.signature = hs256 secret tok.payload) with hs | hs
    · simp [get_current_user, jwt_decode, hs, h]
    · simp [get_current_user, jwt_decode, hs]

/-- C8 witness: a default-ttl token read at time 5, and a token with
expiry 10 presented at time 11. -/
theorem token_roundtrip_and_expiry_witness :
    (jwt_decode "sec" (create_access_token "sec" (some "a@x.com") 0 none)
        5).map TokenPayload.sub = Except.ok (some "a@x.com")
    ∧ get_current_user emptyDB "sec"
        (create_access_token "sec" (some "a@x.com") 0 (some 10)) 11
      = Except.error "凭证验证失败" :=
  ⟨token_roundtrip_and_expiry.1 "sec" "a@x.com" 0 5 none (by decide),
   token_roundtrip_and_expiry.2 emptyDB "sec"
     (create_access_token "sec" (some "a@x.com") 0 (some 10)) 11 (by decide)⟩

/-- C9 counterexample: against the malformed hash string `"nothash"`,
`verify_password` raises (`ValueError("Invalid salt")` from
`bcrypt.checkpw`) instead of returning false. -/
theorem verify_password_malformed_raises :
    verify_password "password1" "nothash" = Except.error "Invalid salt"
    ∧ verify_password "password1" "nothash" ≠ Except.ok false := by
  have h1 : verify_password "password1" "nothash"
      = Except.error "Invalid salt" := rfl
  exact ⟨h1, by rw [h1]; intro h; exact Except.noConfusion h⟩

/-- C9 amended: verification against a malformed hash string raises the
underlying `ValueError` rather than returning false; verification
against a well-formed but mismatching hash returns false. -/
theorem verify_password_amended (plain hashed : String) :
    (parseBcrypt hashed = none →
      verify_password plain hashed = Except.error "Invalid salt")
    ∧ (∀ salt digest, parseBcrypt hashed = some (salt, digest) →
        bdigest salt plain ≠ digest →
        verify_password plain hashed = Except.ok false) := by
  constructor
  · intro h
    simp [verify_password, checkpw, h]
  · intro salt digest h hne
    simp [verify_password, checkpw, h, hne]

/-- C9 amended witness: a malformed hash raises; a genuine hash of a
different password verifies to false. -/
theorem verify_password_amended_witness :
    verify_password "password1" "badhash" = Except.error "Invalid salt"
    ∧ verify_password "wrongpw" (hash_password "correcthorse" "ab")
      = Except.ok false :=
  ⟨(verify_password_amended "password1" "badhash").1 rfl,
   (verify_password_amended "wrongpw" (hash_password "correcthorse" "ab")).2
     "ab" (bdigest "ab" "correcthorse") rfl (by decide)⟩

/-- C10: a login request whose password is shorter than 8 characters is
rejected by validation before the handler runs: the response is the
validation error and is independent of the database, the secret and the
clock — no user lookup or password verification takes place. -/
theorem login_short_password_validation (db db2 : DB)
    (secret secret2 : String) (now now2 : Nat) (email password : String)
    (h : password.length < 8) :
    login_endpoint db secret now email password = HTTPResponse.validation_error
    ∧ login_endpoint db secret now email password
      = login_endpoint db2 secret2 now2 email password := by
  have hd : decide (password.length ≥ 8) = false := by
    simp [Nat.not_le.mpr h]
  constructor <;> simp [login_endpoint, parseLoginRequest, hd]

/-- C10 witness: a 5-character password against two different stores. -/
theorem login_short_password_validation_witness :
    login_endpoint emptyDB "sec" 0 "a@x.com" "short"
      = HTTPResponse.validation_error
    ∧ login_endpoint emptyDB "sec" 0 "a@x.com" "short"
      = login_endpoint (create_user emptyDB ⟨"a@x.com", "h"⟩) "sec2" 7
          "a@x.com" "short" :=
  login_short_password_validation emptyDB (create_user emptyDB ⟨"a@x.com", "h"⟩)
    "sec" "sec2" 0 7 "a@x.com" "short" (by decide)

end Backend
